import Mathlib

/-!
# Verification of the sketch/extrude importer (`server/sketch_extrude_importer.py`)

Shallow embedding of the `SketchExtrudeImporter` class.  Numeric values
(Python floats) are modelled as exact rationals `ℚ`; JSON dictionaries are
modelled as association lists (preserving insertion order, as Python dicts
do); side effects (diagnostic prints and CAD-kernel calls) are modelled as an
explicit event trace `List Event`; exceptions (`KeyError`, kernel errors) are
modelled with `Except Err`.

The CAD kernel itself (`adsk.core` / `adsk.fusion`) and the sibling modules
`deserialize` and `name` are external to the source under verification; they
are modelled at their interface, following the specification (each such
definition is marked `Modelled from the spec:`).  In particular, per the
spec's design notes, the kernel's autonomously derived profile collection of
a sketch is passed in as an explicit argument.
-/

set_option autoImplicit false
set_option maxRecDepth 8000

deriving instance DecidableEq for Except

namespace SketchExtrudeImporter

/-- A 3D point `(x, y, z)` in model length units. -/
structure Point3d where
  x : ℚ
  y : ℚ
  z : ℚ
deriving DecidableEq, Repr

/-- Modelled from the spec: a sketch-plane transform (`deserialize.matrix3d`
result).  Its entries are irrelevant to every claim; it is carried opaquely. -/
structure Matrix3d where
  entries : List ℚ
deriving DecidableEq, Repr

/-- Geometric invariants of a profile: area, perimeter and centroid.  Used
both for the recorded `properties` of a `ProfileRecord` and for the result of
the kernel's `areaProperties` call. -/
structure ProfileProperties where
  area : ℚ
  perimeter : ℚ
  centroid : Point3d
deriving DecidableEq, Repr

/-- Modelled from the spec: one curve bounding a loop of a kernel-derived
profile.  `sketchEntity` is the external identifier read back from the
underlying sketch entity by `name.get_uuid` (identity tagging side channel);
it is `none` for curves that were not created (and hence not tagged) by this
reconstruction. -/
structure ProfileCurve where
  sketchEntity : Option String
deriving DecidableEq, Repr

/-- Modelled from the spec: one loop of a kernel-derived profile
(`profile.profileLoops` element), exposing its bounding curves. -/
structure ProfileLoop where
  profileCurves : List ProfileCurve
deriving DecidableEq, Repr

/-- Modelled from the spec: a kernel-derived profile handle.  `areaProps` is
the result of `profile.areaProperties(HighCalculationAccuracy)` — the kernel
computes it; the matcher only reads it. -/
structure KernelProfile where
  profileLoops : List ProfileLoop
  areaProps : ProfileProperties
deriving DecidableEq, Repr

/-- One entry of a loop of a recorded profile: `{"curve": <curve uuid>}`. -/
structure ProfileCurveData where
  curve : String
deriving DecidableEq, Repr

/-- One recorded loop: `{"profile_curves": [...]}`. -/
structure LoopData where
  profile_curves : List ProfileCurveData
deriving DecidableEq, Repr

/-- A recorded profile (`profile_data`): its loops and its recorded
geometric properties, captured on the original model. -/
structure ProfileData where
  loops : List LoopData
  properties : ProfileProperties
deriving DecidableEq, Repr

/-- A recorded sketch curve.  The JSON dict is discriminated by `type`
(`"SketchLine"`, `"SketchArc"`, `"SketchCircle"`, or anything else); each
variant reads only the fields relevant to it, so the record carries them all
(fields unread by a variant are simply ignored, as in the source). -/
structure CurveData where
  construction_geom : Bool
  type : String
  start_point : String
  end_point : String
  center_point : String
  radius : ℚ
  start_angle : ℚ
  end_angle : ℚ
deriving DecidableEq, Repr

/-- A recorded sketch (`sketch_data`).  `curves` is `none` when the record
carries no `"curves"` key at all (a reference/placeholder sketch), and
`some cs` when the key is present (possibly with zero curves). -/
structure SketchData where
  transform : Matrix3d
  points : List (String × Point3d)
  curves : Option (List (String × CurveData))
  profiles : List (String × ProfileData)
deriving DecidableEq, Repr

/-- One profile reference of an extrude record: `{"profile": <uuid>}`. -/
structure ProfileRef where
  profile : String
deriving DecidableEq, Repr

/-- One extent descriptor (`extent_one` / `extent_two`): a distance, an
optional taper angle (`"taper_angle" in extent` in the source) and the
`is_full_length` flag (read only for symmetric extents). -/
structure ExtentData where
  distance : ℚ
  taper_angle : Option ℚ
  is_full_length : Bool
deriving DecidableEq, Repr

/-- The recorded start-extent descriptor: a `type` tag and the offset value
(read only when `type = "OffsetStartDefinition"`). -/
structure StartExtentData where
  type : String
  offset : ℚ
deriving DecidableEq, Repr

/-- A recorded extrude feature (`extrude_data`). -/
structure ExtrudeData where
  profiles : List ProfileRef
  operation : String
  extent_type : String
  extent_one : ExtentData
  extent_two : ExtentData
  start_extent : StartExtentData
deriving DecidableEq, Repr

/-- One timeline entry: `{"entity": <uuid>, "index": <position>}`.  The
source reads `index` into a local variable and never uses it. -/
structure TimelineEntry where
  entity : String
  index : Int
deriving DecidableEq, Repr

/-- A timeline entity, discriminated by its `type` tag.  `other` carries the
raw tag of entities that are neither sketches nor extrude features. -/
inductive Entity where
  | sketch (name : String) (data : SketchData)
  | extrudeFeature (name : String) (data : ExtrudeData)
  | other (name : String) (type : String)
deriving DecidableEq, Repr

/-- The top-level JSON document: `entities` (id → record) and `timeline`. -/
structure ReconstructData where
  timeline : List TimelineEntry
  entities : List (String × Entity)
deriving DecidableEq, Repr

/-- Errors: a Python `KeyError` on a missing dictionary key, and the kernel
error raised when an unresolved (`None`) profile handle reaches the kernel's
object collection. -/
inductive Err where
  | keyError (key : String)
  | nullProfileAdd (key : String)
deriving DecidableEq, Repr

/-- The observable effects of a run, in program order: diagnostic prints and
CAD-kernel calls. -/
inductive Event where
  | reconstructingMsg (entityName : String)
  | pointsCurvesMsg (numPoints numCurves : Nat)
  | unsupportedCurveTypeMsg (curveType : String)
  | profileNotFoundMsg (profileUuid : String) (curveUuids : List String)
  | createSketch
  | setSketchTransform
  | addLine (uuid : String) (startPoint endPoint : Point3d)
  | addArc (uuid : String) (centerPoint startPoint : Point3d) (sweep : ℚ)
  | addCircle (uuid : String) (centerPoint : Point3d) (radius : ℚ)
  | createObjectCollection
  | collectionAdd (profileUuid : String)
  | createExtrudeInput (operation : String)
  | setOneSideExtent (distance : ℚ) (direction : String) (taper : ℚ)
  | setTwoSidesExtent (distanceOne distanceTwo taperOne taperTwo : ℚ)
  | setStartExtent (offset : ℚ)
  | addExtrudeFeature
deriving DecidableEq, Repr

/-- True exactly on the events that model a `print` diagnostic. -/
def Event.isMsg : Event → Bool
  | .reconstructingMsg _ => true
  | .pointsCurvesMsg _ _ => true
  | .unsupportedCurveTypeMsg _ => true
  | .profileNotFoundMsg _ _ => true
  | _ => false

/-- True exactly on the events that model creation of a sketch curve
(line, arc or circle). -/
def Event.isCurveCreation : Event → Bool
  | .addLine _ _ _ => true
  | .addArc _ _ _ _ => true
  | .addCircle _ _ _ => true
  | _ => false

/-- The uuid materialized by a curve-creation event, if any. -/
def Event.materializedUuid : Event → Option String
  | .addLine u _ _ => some u
  | .addArc u _ _ _ => some u
  | .addCircle u _ _ => some u
  | _ => none

/-- True exactly on the events that model kernel feature creation for an
extrude (building the extrude input and committing the feature). -/
def Event.isFeatureCreation : Event → Bool
  | .createExtrudeInput _ => true
  | .addExtrudeFeature => true
  | _ => false

/-- True exactly on the start-extent assignment event. -/
def Event.isSetStartExtent : Event → Bool
  | .setStartExtent _ => true
  | _ => false

/-- Source `d[k]` on an insertion-ordered dictionary: the value at the first
occurrence of key `k`, or `none` (Python raises `KeyError` there; callers
turn `none` into `Err.keyError`). -/
def lookupDict {α : Type} (k : String) : List (String × α) → Option α
  | [] => none
  | (a, v) :: rest => if k = a then some v else lookupDict k rest

/-- Python `dict.update`: existing keys keep their position and receive the
new value; new keys are appended in the update's order. -/
def dictUpdate {α : Type} (d u : List (String × α)) : List (String × α) :=
  (d.map fun p => ((p.1, (lookupDict p.1 u).getD p.2) : String × α))
    ++ u.filter fun p => (lookupDict p.1 d).isNone

/-- Insert a string into a (sorted) list, keeping it sorted: the inner step
of the insertion sort modelling Python's `sorted`. -/
def insertSorted (s : String) : List String → List String
  | [] => [s]
  | t :: ts => if s ≤ t then s :: t :: ts else t :: insertSorted s ts

/-- Python `sorted` on a list of strings (ascending lexicographic order on
code points), via insertion sort. -/
def sortedList (l : List String) : List String :=
  l.foldr insertSorted []

/-- Python `math.isclose(a, b, rel_tol, abs_tol)` on exact rationals:
`abs(a-b) <= max(rel_tol * max(abs(a), abs(b)), abs_tol)`. -/
def mathIsclose (a b rel_tol abs_tol : ℚ) : Bool :=
  decide (|a - b| ≤ max (rel_tol * max |a| |b|) abs_tol)

/-- The tolerance `0.000000001` of `are_profile_properties_identical`. -/
def tolerance : ℚ := 1 / 1000000000

/-- The default `rel_tol` of Python's `math.isclose`, which the source does
not override. -/
def isclose_default_rel_tol : ℚ := 1 / 1000000000

/-- Source `are_profile_properties_identical`: the five sequential tolerance checks
on area, perimeter and the three centroid axes (early-return chain). -/
def are_profile_properties_identical (profile : KernelProfile)
    (profile_data : ProfileData) : Bool :=
  let profile_props := profile.areaProps
  if !mathIsclose profile_props.area profile_data.properties.area
      isclose_default_rel_tol tolerance then false
  else if !mathIsclose profile_props.perimeter profile_data.properties.perimeter
      isclose_default_rel_tol tolerance then false
  else if !mathIsclose profile_props.centroid.x profile_data.properties.centroid.x
      isclose_default_rel_tol tolerance then false
  else if !mathIsclose profile_props.centroid.y profile_data.properties.centroid.y
      isclose_default_rel_tol tolerance then false
  else if !mathIsclose profile_props.centroid.z profile_data.properties.centroid.z
      isclose_default_rel_tol tolerance then false
  else true

/-- The curve uuids of one recorded loop (`loop["profile_curves"]`,
projecting each entry's `"curve"` field). -/
def loop_record_curve_ids (loop : LoopData) : List String :=
  loop.profile_curves.map fun pc => pc.curve

/-- Source `get_curve_uuids`: all curve uuids over all loops of the recorded
profile, sorted. -/
def get_curve_uuids (profile_data : ProfileData) : List String :=
  sortedList (profile_data.loops.map loop_record_curve_ids).flatten

/-- The tagged curve uuids of one kernel loop: each bounding curve is
resolved back to its attached identifier; curves with no attached identifier
(`name.get_uuid` returning `None`) are omitted. -/
def loop_curve_uuids (loop : ProfileLoop) : List String :=
  loop.profileCurves.filterMap fun curve => curve.sketchEntity

/-- The inner collection loop of `find_profile`: all tagged curve uuids over
all loops of a candidate kernel profile (unsorted). -/
def found_curve_uuids (profile : KernelProfile) : List String :=
  (profile.profileLoops.map loop_curve_uuids).flatten

/-- The acceptance test of `find_profile`'s loop body: sorted curve-uuid
equality, then the geometric-property check. -/
def profile_matches (profile_data : ProfileData) (profile : KernelProfile) : Bool :=
  sortedList (found_curve_uuids profile) == get_curve_uuids profile_data
    && are_profile_properties_identical profile profile_data

/-- The candidate loop of `find_profile`: return the first candidate passing
`profile_matches`, else `none`. -/
def find_profile_loop (profile_data : ProfileData) :
    List KernelProfile → Option KernelProfile
  | [] => none
  | profile :: rest =>
    if profile_matches profile_data profile then some profile
    else find_profile_loop profile_data rest

/-- Source `find_profile`: search the kernel's candidate profiles for the recorded
one; on failure print the expected profile uuid and curve-uuid set and
return `None`. -/
def find_profile (profiles : List KernelProfile) (profile_uuid : String)
    (profile_data : ProfileData) : Option KernelProfile × List Event :=
  match find_profile_loop profile_data profiles with
  | some profile => (some profile, [])
  | none => (none, [.profileNotFoundMsg profile_uuid (get_curve_uuids profile_data)])

/-- Look a point uuid up in `points_data` (`points_data[uuid]` followed by
`deserialize.point3d`, which is the identity on the already-structured
point); a missing key is a Python `KeyError`. -/
def lookupPoint (points_data : List (String × Point3d)) (k : String) :
    Except Err Point3d :=
  match lookupDict k points_data with
  | some p => .ok p
  | none => .error (.keyError k)

/-- Source `reconstruct_sketch_line`: look up the two endpoints and create the line
(`addByTwoPoints`), tagging it with the curve uuid (`name.set_custom_uuid`,
modelled by the uuid carried on the creation event). -/
def reconstruct_sketch_line (curve_data : CurveData) (curve_uuid : String)
    (points_data : List (String × Point3d)) : Except Err Unit × List Event :=
  match lookupPoint points_data curve_data.start_point with
  | .error e => (.error e, [])
  | .ok start_point =>
    match lookupPoint points_data curve_data.end_point with
    | .error e => (.error e, [])
    | .ok end_point => (.ok (), [.addLine curve_uuid start_point end_point])

/-- Source `reconstruct_sketch_arc`: look up center and start points, compute the
signed sweep `end_angle - start_angle`, create the arc
(`addByCenterStartSweep`) and tag it. -/
def reconstruct_sketch_arc (curve_data : CurveData) (curve_uuid : String)
    (points_data : List (String × Point3d)) : Except Err Unit × List Event :=
  match lookupPoint points_data curve_data.start_point with
  | .error e => (.error e, [])
  | .ok start_point =>
    match lookupPoint points_data curve_data.center_point with
    | .error e => (.error e, [])
    | .ok center_point =>
      let sweep_angle := curve_data.end_angle - curve_data.start_angle
      (.ok (), [.addArc curve_uuid center_point start_point sweep_angle])

/-- Source `reconstruct_sketch_circle`: look up the center point, create the circle
(`addByCenterRadius`) and tag it. -/
def reconstruct_sketch_circle (curve_data : CurveData) (curve_uuid : String)
    (points_data : List (String × Point3d)) : Except Err Unit × List Event :=
  match lookupPoint points_data curve_data.center_point with
  | .error e => (.error e, [])
  | .ok center_point =>
    (.ok (), [.addCircle curve_uuid center_point curve_data.radius])

/-- Source `reconstruct_sketch_curves`: iterate the recorded curves in insertion
order; skip construction geometry; dispatch on the `type` tag; print a
warning and continue for any other tag. -/
def reconstruct_sketch_curves (curves_data : List (String × CurveData))
    (points_data : List (String × Point3d)) : Except Err Unit × List Event :=
  match curves_data with
  | [] => (.ok (), [])
  | (curve_uuid, curve) :: rest =>
    if curve.construction_geom then
      reconstruct_sketch_curves rest points_data
    else if curve.type == "SketchLine" then
      match reconstruct_sketch_line curve curve_uuid points_data with
      | (.error e, evs) => (.error e, evs)
      | (.ok _, evs) =>
        let (r, evs2) := reconstruct_sketch_curves rest points_data
        (r, evs ++ evs2)
    else if curve.type == "SketchArc" then
      match reconstruct_sketch_arc curve curve_uuid points_data with
      | (.error e, evs) => (.error e, evs)
      | (.ok _, evs) =>
        let (r, evs2) := reconstruct_sketch_curves rest points_data
        (r, evs ++ evs2)
    else if curve.type == "SketchCircle" then
      match reconstruct_sketch_circle curve curve_uuid points_data with
      | (.error e, evs) => (.error e, evs)
      | (.ok _, evs) =>
        let (r, evs2) := reconstruct_sketch_curves rest points_data
        (r, evs ++ evs2)
    else
      let (r, evs2) := reconstruct_sketch_curves rest points_data
      (r, .unsupportedCurveTypeMsg curve.type :: evs2)

/-- The profile-recovery loop of `reconstruct_curves`: invoke `find_profile`
once per recorded profile, in order, building the profile-id ↦ result map. -/
def match_profiles (kernelProfiles : List KernelProfile) :
    List (String × ProfileData) →
      List (String × Option KernelProfile) × List Event
  | [] => ([], [])
  | (profile_uuid, profile_data) :: rest =>
    let (r, evs) := find_profile kernelProfiles profile_uuid profile_data
    let (m, evs2) := match_profiles kernelProfiles rest
    ((profile_uuid, r) :: m, evs ++ evs2)

/-- Source `reconstruct_curves`: print the point/curve counts, materialize the
curves (with profile recomputation deferred around the batch), then recover
the kernel profile for each recorded profile.  Per the spec's design notes
the kernel's derived profile collection (`sketch.profiles`) is an explicit
argument `kernelProfiles`. -/
def reconstruct_curves (kernelProfiles : List KernelProfile)
    (sketch_data : SketchData) :
    Except Err (List (String × Option KernelProfile)) × List Event :=
  match sketch_data.curves with
  | none => (.error (.keyError "curves"), [])
  | some curves_data =>
    let headEv := Event.pointsCurvesMsg sketch_data.points.length curves_data.length
    match reconstruct_sketch_curves curves_data sketch_data.points with
    | (.error e, evs) => (.error e, headEv :: evs)
    | (.ok _, evs) =>
      let (m, evs2) := match_profiles kernelProfiles sketch_data.profiles
      (.ok m, headEv :: (evs ++ evs2))

/-- Source `reconstruct_sketch`: `None` when the record carries no `"curves"` key;
otherwise create the sketch on the base plane, apply the recorded transform
(`deserialize.matrix3d`; requires direct-design mode, a precondition of the
run), and delegate to `reconstruct_curves`. -/
def reconstruct_sketch (kernelProfiles : List KernelProfile)
    (sketch_data : SketchData) :
    Except Err (Option (List (String × Option KernelProfile))) × List Event :=
  if sketch_data.curves.isNone then (.ok none, [])
  else
    match reconstruct_curves kernelProfiles sketch_data with
    | (.error e, evs) => (.error e, Event.createSketch :: Event.setSketchTransform :: evs)
    | (.ok m, evs) => (.ok (some m), Event.createSketch :: Event.setSketchTransform :: evs)

/-- Modelled from the spec: `deserialize.feature_operations` maps the
recorded operation tag (join/cut/intersect/new-body/new-component) to the
kernel's operation enum; modelled as the tag itself. -/
def feature_operations (operation : String) : String := operation

/-- The extent configuration finally carried by an extrude input. -/
inductive ExtentDef where
  | oneSide (distance : ℚ) (direction : String) (taper : ℚ)
  | twoSides (distanceOne distanceTwo taperOne taperTwo : ℚ)
deriving DecidableEq, Repr

/-- The start-extent configuration of an extrude input; the kernel default
is the profile's own plane. -/
inductive StartDef where
  | profilePlane
  | offsetStart (offset : ℚ)
deriving DecidableEq, Repr

/-- The extrude input being assembled (`extrudes.createInput` result, then
mutated by the extent and start-extent setters). -/
structure ExtrudeInput where
  profiles : List KernelProfile
  operation : String
  extent : Option ExtentDef
  startExtent : StartDef
deriving DecidableEq, Repr

/-- The profile-resolution loop of `reconstruct_extrude_feature`: look each
reference up in `sketch_profiles` (a missing key is a Python `KeyError`) and
add it to the kernel object collection.  Modelled from the spec: the kernel
collection/feature creation rejects an unresolved (`None`) profile handle —
a missing *or NotFound* entry is a hard error (spec §4.3). -/
def resolve_profiles (sketch_profiles : List (String × Option KernelProfile)) :
    List ProfileRef → Except Err (List KernelProfile) × List Event
  | [] => (.ok [], [])
  | r :: rest =>
    match lookupDict r.profile sketch_profiles with
    | none => (.error (.keyError r.profile), [])
    | some none => (.error (.nullProfileAdd r.profile), [])
    | some (some p) =>
      match resolve_profiles sketch_profiles rest with
      | (.ok ps, evs) => (.ok (p :: ps), .collectionAdd r.profile :: evs)
      | (.error e, evs) => (.error e, .collectionAdd r.profile :: evs)

/-- Source `set_one_side_extrude_input`: one distance, taper defaulting to `0` when
the record carries none, positive direction. -/
def set_one_side_extrude_input (extrude_input : ExtrudeInput)
    (extent_one : ExtentData) : ExtrudeInput × List Event :=
  let taper_angle := match extent_one.taper_angle with
    | some t => t
    | none => 0
  ({ extrude_input with
      extent := some (.oneSide extent_one.distance "PositiveExtentDirection" taper_angle) },
   [.setOneSideExtent extent_one.distance "PositiveExtentDirection" taper_angle])

/-- Source `set_two_side_extrude_input`: two independent (distance, taper) pairs,
tapers defaulting to `0`. -/
def set_two_side_extrude_input (extrude_input : ExtrudeInput)
    (extent_one extent_two : ExtentData) : ExtrudeInput × List Event :=
  let taper_angle_one := match extent_one.taper_angle with
    | some t => t
    | none => 0
  let taper_angle_two := match extent_two.taper_angle with
    | some t => t
    | none => 0
  ({ extrude_input with
      extent := some (.twoSides extent_one.distance extent_two.distance
        taper_angle_one taper_angle_two) },
   [.setTwoSidesExtent extent_one.distance extent_two.distance
      taper_angle_one taper_angle_two])

/-- Source `set_symmetric_extrude_input`: the two-sided workaround — the distance
(halved when `is_full_length`) applied to both sides, the same taper (or `0`)
on both sides. -/
def set_symmetric_extrude_input (extrude_input : ExtrudeInput)
    (extent_one : ExtentData) : ExtrudeInput × List Event :=
  let distance0 := extent_one.distance
  let distance := if extent_one.is_full_length then distance0 * (1 / 2) else distance0
  let (taper_angle_one, taper_angle_two) := match extent_one.taper_angle with
    | some t => (t, t)
    | none => ((0 : ℚ), (0 : ℚ))
  ({ extrude_input with
      extent := some (.twoSides distance distance taper_angle_one taper_angle_two) },
   [.setTwoSidesExtent distance distance taper_angle_one taper_angle_two])

/-- Source `set_start_extent`: only the offset case is handled
(`OffsetStartDefinition`); the profile-plane default and every other type
tag are left untouched, with no action and no diagnostic. -/
def set_start_extent (extrude_input : ExtrudeInput)
    (start_extent : StartExtentData) : ExtrudeInput × List Event :=
  if start_extent.type == "OffsetStartDefinition" then
    ({ extrude_input with startExtent := .offsetStart start_extent.offset },
     [.setStartExtent start_extent.offset])
  else (extrude_input, [])

/-- Source `reconstruct_extrude_feature`: resolve the profile references into a
kernel object collection, build the extrude input with the recorded
operation, configure the side extent by `extent_type` tag, then apply the
start extent, and finally commit the feature (`extrudes.add`). -/
def reconstruct_extrude_feature (extrude_data : ExtrudeData)
    (sketch_profiles : List (String × Option KernelProfile)) :
    Except Err ExtrudeInput × List Event :=
  match resolve_profiles sketch_profiles extrude_data.profiles with
  | (.error e, evs) => (.error e, Event.createObjectCollection :: evs)
  | (.ok ps, evs) =>
    let operation := feature_operations extrude_data.operation
    let input0 : ExtrudeInput :=
      { profiles := ps, operation := operation, extent := none,
        startExtent := .profilePlane }
    let (input1, evs1) :=
      if extrude_data.extent_type == "OneSideFeatureExtentType" then
        set_one_side_extrude_input input0 extrude_data.extent_one
      else if extrude_data.extent_type == "TwoSidesFeatureExtentType" then
        set_two_side_extrude_input input0 extrude_data.extent_one extrude_data.extent_two
      else if extrude_data.extent_type == "SymmetricFeatureExtentType" then
        set_symmetric_extrude_input input0 extrude_data.extent_one
      else (input0, [])
    let (input2, evs2) := set_start_extent input1 extrude_data.start_extent
    (.ok input2,
     Event.createObjectCollection :: (evs
       ++ (Event.createExtrudeInput operation :: (evs1 ++ evs2 ++ [Event.addExtrudeFeature]))))

/-- The name carried by a timeline entity (`entity["name"]`). -/
def Entity.entityName : Entity → String
  | .sketch n _ => n
  | .extrudeFeature n _ => n
  | .other n _ => n

/-- The timeline loop of `reconstruct`: process entries in recorded order;
resolve the entity by id; print its name; dispatch on its type tag; merge a
sketch's (truthy, i.e. non-`None` non-empty) profile map into the running
table; reconstruct an extrude against the running table; ignore every other
type tag.  Any raised error halts the run. -/
def reconstruct_timeline (oracle : String → List KernelProfile)
    (entities : List (String × Entity)) :
    List TimelineEntry → List (String × Option KernelProfile) →
      Except Err (List (String × Option KernelProfile)) × List Event
  | [], sketch_profiles => (.ok sketch_profiles, [])
  | entry :: rest, sketch_profiles =>
    match lookupDict entry.entity entities with
    | none => (.error (.keyError entry.entity), [])
    | some entity =>
      let nameEv := Event.reconstructingMsg entity.entityName
      match entity with
      | .sketch _ sketch_data =>
        match reconstruct_sketch (oracle entry.entity) sketch_data with
        | (.error e, evs) => (.error e, nameEv :: evs)
        | (.ok mopt, evs) =>
          let sketch_profiles2 := match mopt with
            | some m => if m.isEmpty then sketch_profiles else dictUpdate sketch_profiles m
            | none => sketch_profiles
          let (r, evs2) := reconstruct_timeline oracle entities rest sketch_profiles2
          (r, nameEv :: (evs ++ evs2))
      | .extrudeFeature _ extrude_data =>
        match reconstruct_extrude_feature extrude_data sketch_profiles with
        | (.error e, evs) => (.error e, nameEv :: evs)
        | (.ok _, evs) =>
          let (r, evs2) := reconstruct_timeline oracle entities rest sketch_profiles
          (r, nameEv :: (evs ++ evs2))
      | .other _ _ =>
        let (r, evs2) := reconstruct_timeline oracle entities rest sketch_profiles
        (r, nameEv :: evs2)

/-- Source `reconstruct`: run the whole timeline starting from an empty profile
lookup table.  `oracle` abstracts the kernel's autonomous profile derivation:
it yields, per sketch entity id, the profile collection the kernel exposes
after that sketch's curves are committed. -/
def reconstruct (oracle : String → List KernelProfile) (data : ReconstructData) :
    Except Err (List (String × Option KernelProfile)) × List Event :=
  reconstruct_timeline oracle data.entities data.timeline []

/-- True on a successful `Except` result, false on a raised error. -/
def isOk {α : Type} : Except Err α → Bool
  | .ok _ => true
  | .error _ => false

/-- The curve `type` tags the source materializes. -/
def isSupportedCurveType (t : String) : Bool :=
  t == "SketchLine" || t == "SketchArc" || t == "SketchCircle"

/-- True exactly on kernel object-collection add events. -/
def Event.isCollectionAdd : Event → Bool
  | .collectionAdd _ => true
  | _ => false

/-- The per-side distance of the symmetric two-sided workaround: the recorded
distance, halved when `is_full_length` marks it as the total span. -/
def symmetric_distance (extent_one : ExtentData) : ℚ :=
  if extent_one.is_full_length then extent_one.distance / 2 else extent_one.distance

/-- The side-extent configuration `reconstruct_extrude_feature` installs for
a record, by `extent_type` tag (`none` for an unrecognized tag: no extent
call is made). -/
def side_extent_def (extrude_data : ExtrudeData) : Option ExtentDef :=
  if extrude_data.extent_type == "OneSideFeatureExtentType" then
    some (.oneSide extrude_data.extent_one.distance "PositiveExtentDirection"
      (extrude_data.extent_one.taper_angle.getD 0))
  else if extrude_data.extent_type == "TwoSidesFeatureExtentType" then
    some (.twoSides extrude_data.extent_one.distance extrude_data.extent_two.distance
      (extrude_data.extent_one.taper_angle.getD 0)
      (extrude_data.extent_two.taper_angle.getD 0))
  else if extrude_data.extent_type == "SymmetricFeatureExtentType" then
    some (.twoSides (symmetric_distance extrude_data.extent_one)
      (symmetric_distance extrude_data.extent_one)
      (extrude_data.extent_one.taper_angle.getD 0)
      (extrude_data.extent_one.taper_angle.getD 0))
  else none

/-- The kernel extent calls emitted for a record's side-extent
configuration. -/
def side_extent_events (extrude_data : ExtrudeData) : List Event :=
  match side_extent_def extrude_data with
  | some (.oneSide dist dir t) => [.setOneSideExtent dist dir t]
  | some (.twoSides d1 d2 t1 t2) => [.setTwoSidesExtent d1 d2 t1 t2]
  | none => []

/-- The kernel start-extent calls emitted for a record: one assignment for
an offset start, nothing (and no diagnostic) otherwise. -/
def start_extent_events (extrude_data : ExtrudeData) : List Event :=
  if extrude_data.start_extent.type == "OffsetStartDefinition" then
    [.setStartExtent extrude_data.start_extent.offset]
  else []

/-- A profile-derivation oracle for a document whose kernel exposes no
profiles (used to exercise the driver on concrete timelines). -/
def emptyOracle : String → List KernelProfile := fun _ => []

/-- Zeroed geometric properties, shared by the concrete sample records
below. -/
def zeroProps : ProfileProperties :=
  { area := 0, perimeter := 0, centroid := { x := 0, y := 0, z := 0 } }

/-- Concrete input for C1: a recorded profile with no loops. -/
def c1ProfileData : ProfileData := { loops := [], properties := zeroProps }

/-- Concrete input for C1: a sketch record with zero curves and one recorded
profile. -/
def c1Sketch : SketchData :=
  { transform := { entries := [] }, points := [], curves := some [],
    profiles := [("p1", c1ProfileData)] }

/-- Concrete input for C2: an extrude record referencing a profile id that
is absent from the lookup table. -/
def c2Extrude : ExtrudeData :=
  { profiles := [{ profile := "missing" }], operation := "NewBodyFeatureOperation",
    extent_type := "OneSideFeatureExtentType",
    extent_one := { distance := 1, taper_angle := none, is_full_length := false },
    extent_two := { distance := 1, taper_angle := none, is_full_length := false },
    start_extent := { type := "ProfilePlaneStartDefinition", offset := 0 } }

/-- Concrete input for C2: an empty lookup table. -/
def c2Table : List (String × Option KernelProfile) := []

/-- Concrete input for C2: an entity table holding only the bad extrude. -/
def c2Entities : List (String × Entity) :=
  [("e1", .extrudeFeature "Extrude1" c2Extrude)]

/-- Concrete input for C3: a kernel profile whose centroid x is 1000. -/
def c3Candidate : KernelProfile :=
  { profileLoops := [{ profileCurves := [{ sketchEntity := some "c1" }] }],
    areaProps := { area := 4, perimeter := 8,
                   centroid := { x := 1000, y := 0, z := 0 } } }

/-- Concrete input for C3: the matching record, with centroid x differing
from the candidate by `5e-7`, far beyond `1e-9` yet within the relative
tolerance at magnitude 1000. -/
def c3Record : ProfileData :=
  { loops := [{ profile_curves := [{ curve := "c1" }] }],
    properties := { area := 4, perimeter := 8,
                    centroid := { x := 1000 + 1 / 2000000, y := 0, z := 0 } } }

/-- Concrete input for C4: a kernel profile bounded by one tagged curve and
one untagged (externally created) curve. -/
def c4Candidate : KernelProfile :=
  { profileLoops := [{ profileCurves := [{ sketchEntity := some "a" },
                                         { sketchEntity := none }] }],
    areaProps := zeroProps }

/-- Concrete input for C4: the record whose single loop lists exactly the
tagged curve. -/
def c4Record : ProfileData :=
  { loops := [{ profile_curves := [{ curve := "a" }] }], properties := zeroProps }

/-- Concrete input for C4: the loops of `c4Candidate` without padding. -/
def c4Loops : List ProfileLoop := [{ profileCurves := [{ sketchEntity := some "a" }] }]

/-- Concrete input for C4: `c4Loops` with an untagged curve appended to each
loop. -/
def c4PaddedProfile : KernelProfile :=
  { profileLoops := [{ profileCurves := [{ sketchEntity := some "a" },
                                         { sketchEntity := none }] }],
    areaProps := zeroProps }

/-- Concrete input for C4: the unpadded kernel profile over `c4Loops`. -/
def c4BaseProfile : KernelProfile := { profileLoops := c4Loops, areaProps := zeroProps }

/-- Concrete input for C5: a kernel profile handle. -/
def c5Profile : KernelProfile := { profileLoops := [], areaProps := zeroProps }

/-- Concrete input for C5: a symmetric extrude record with `distance = 10`
and `is_full_length = true`. -/
def c5Data : ExtrudeData :=
  { profiles := [{ profile := "p1" }], operation := "NewBodyFeatureOperation",
    extent_type := "SymmetricFeatureExtentType",
    extent_one := { distance := 10, taper_angle := none, is_full_length := true },
    extent_two := { distance := 0, taper_angle := none, is_full_length := false },
    start_extent := { type := "ProfilePlaneStartDefinition", offset := 0 } }

/-- Concrete input for C5: a lookup table resolving the one reference. -/
def c5Table : List (String × Option KernelProfile) := [("p1", some c5Profile)]

/-- Concrete input for C6: a recorded profile with no loops. -/
def c6Pd : ProfileData := { loops := [], properties := zeroProps }

/-- Concrete input for C6: a sketch record with zero curves but one recorded
profile. -/
def c6Sketch : SketchData :=
  { transform := { entries := [] }, points := [], curves := some [],
    profiles := [("p1", c6Pd)] }

/-- Concrete input for C6: a sketch record with no curve data at all. -/
def c6NoCurves : SketchData :=
  { transform := { entries := [] }, points := [], curves := none,
    profiles := [] }

/-- Concrete input for C6: a sketch record with zero curves and zero
profiles. -/
def c6EmptyAll : SketchData :=
  { transform := { entries := [] }, points := [], curves := some [],
    profiles := [] }

/-- Concrete input for C7: a materializable line curve. -/
def c7Line : CurveData :=
  { construction_geom := false, type := "SketchLine", start_point := "pt1",
    end_point := "pt2", center_point := "", radius := 0, start_angle := 0,
    end_angle := 0 }

/-- Concrete input for C7: a construction-geometry line. -/
def c7Construction : CurveData :=
  { construction_geom := true, type := "SketchLine", start_point := "pt1",
    end_point := "pt2", center_point := "", radius := 0, start_angle := 0,
    end_angle := 0 }

/-- Concrete input for C7: an unsupported curve variant. -/
def c7Ellipse : CurveData :=
  { construction_geom := false, type := "SketchEllipse", start_point := "pt1",
    end_point := "pt2", center_point := "pt1", radius := 0, start_angle := 0,
    end_angle := 0 }

/-- Concrete input for C7: one supported, one construction and one
unsupported curve. -/
def c7Curves : List (String × CurveData) :=
  [("L1", c7Line), ("K1", c7Construction), ("U1", c7Ellipse)]

/-- Concrete input for C7: the two points the line references. -/
def c7Points : List (String × Point3d) :=
  [("pt1", { x := 0, y := 0, z := 0 }), ("pt2", { x := 1, y := 0, z := 0 })]

/-- Concrete input for C8: an extrude record with an unhandled start-extent
type tag. -/
def c8Data : ExtrudeData :=
  { profiles := [{ profile := "p1" }], operation := "JoinFeatureOperation",
    extent_type := "OneSideFeatureExtentType",
    extent_one := { distance := 3, taper_angle := none, is_full_length := false },
    extent_two := { distance := 0, taper_angle := none, is_full_length := false },
    start_extent := { type := "SomeOtherStartDefinition", offset := 7 } }

/-- Concrete input for C8: a kernel profile handle. -/
def c8Profile : KernelProfile := { profileLoops := [], areaProps := zeroProps }

/-- Concrete input for C8: a lookup table resolving the one reference. -/
def c8Table : List (String × Option KernelProfile) := [("p1", some c8Profile)]

/-- Expected extrude input of the C8 run. -/
def c8Input : ExtrudeInput :=
  { profiles := [c8Profile], operation := "JoinFeatureOperation",
    extent := some (.oneSide 3 "PositiveExtentDirection" 0),
    startExtent := .profilePlane }

/-- Expected event trace of the C8 run: no diagnostic and no start-extent
assignment. -/
def c8Evs : List Event :=
  [.createObjectCollection, .collectionAdd "p1",
   .createExtrudeInput "JoinFeatureOperation",
   .setOneSideExtent 3 "PositiveExtentDirection" 0, .addExtrudeFeature]

/-- Concrete input for C9: a recorded profile with no loops. -/
def c9Pd : ProfileData := { loops := [], properties := zeroProps }

/-- Concrete input for C9: a sketch record with zero curves and one recorded
profile. -/
def c9Sketch : SketchData :=
  { transform := { entries := [] }, points := [], curves := some [],
    profiles := [("p1", c9Pd)] }

/-- Concrete input for C9: an extrude record with no profile references. -/
def c9Extrude : ExtrudeData :=
  { profiles := [], operation := "NewBodyFeatureOperation",
    extent_type := "OneSideFeatureExtentType",
    extent_one := { distance := 1, taper_angle := none, is_full_length := false },
    extent_two := { distance := 1, taper_angle := none, is_full_length := false },
    start_extent := { type := "ProfilePlaneStartDefinition", offset := 0 } }

/-- Concrete input for C9: a sketch, an extrude and an ignored entity. -/
def c9Entities : List (String × Entity) :=
  [("s1", .sketch "Sketch1" c9Sketch),
   ("e1", .extrudeFeature "Extrude1" c9Extrude),
   ("o1", .other "Origin" "ConstructionPlane")]

/-- Expected event trace of reconstructing `c9Sketch` against an empty
kernel profile collection. -/
def c9SketchEvs : List Event :=
  [.createSketch, .setSketchTransform, .pointsCurvesMsg 0 0,
   .profileNotFoundMsg "p1" []]

/-- Expected extrude input of reconstructing `c9Extrude`. -/
def c9Input : ExtrudeInput :=
  { profiles := [], operation := "NewBodyFeatureOperation",
    extent := some (.oneSide 1 "PositiveExtentDirection" 0),
    startExtent := .profilePlane }

/-- Expected event trace of reconstructing `c9Extrude`. -/
def c9ExtrudeEvs : List Event :=
  [.createObjectCollection, .createExtrudeInput "NewBodyFeatureOperation",
   .setOneSideExtent 1 "PositiveExtentDirection" 0, .addExtrudeFeature]

/-- Concrete input for C10: a recorded profile with no loops. -/
def c10Pd : ProfileData := { loops := [], properties := zeroProps }

/-- Concrete input for C10: a sketch record with zero curves and one
recorded profile that will not match. -/
def c10Sketch : SketchData :=
  { transform := { entries := [] }, points := [], curves := some [],
    profiles := [("p1", c10Pd)] }

/-- Concrete input for C10: a kernel profile handle held by the prior
table. -/
def c10Profile : KernelProfile := { profileLoops := [], areaProps := zeroProps }

/-- Concrete input for C10: the running lookup table before the merge. -/
def c10Table : List (String × Option KernelProfile) := [("q1", some c10Profile)]

/-- Expected event trace of `reconstruct_curves` on `c10Sketch`. -/
def c10Evs : List Event :=
  [.pointsCurvesMsg 0 0, .profileNotFoundMsg "p1" []]

theorem insertSorted_perm (s : String) (l : List String) :
    (insertSorted s l).Perm (s :: l) := by
  induction l with
  | nil => simp [insertSorted]
  | cons t ts ih =>
    unfold insertSorted
    by_cases h : s ≤ t
    · simp [h]
    · simp only [if_neg h]
      exact (ih.cons t).trans (List.Perm.swap s t ts)

theorem sortedList_perm (l : List String) : (sortedList l).Perm l := by
  induction l with
  | nil => simp [sortedList]
  | cons a as ih =>
    have : sortedList (a :: as) = insertSorted a (sortedList as) := rfl
    rw [this]
    exact (insertSorted_perm a (sortedList as)).trans (ih.cons a)

theorem lookupDict_eq_of_mem {α : Type} {m : List (String × α)}
    (hnd : (m.map Prod.fst).Nodup) {k : String} {v : α} (hm : (k, v) ∈ m) :
    lookupDict k m = some v := by
  induction m with
  | nil => cases hm
  | cons p rest ih =>
    simp only [List.map_cons, List.nodup_cons] at hnd
    rcases List.mem_cons.mp hm with h | h
    · subst h
      simp [lookupDict]
    · have hk : k ≠ p.1 := by
        intro he
        exact hnd.1 (he ▸ (List.mem_map.mpr ⟨(k, v), h, rfl⟩))
      obtain ⟨a, b⟩ := p
      simp only [lookupDict, if_neg hk]
      exact ih hnd.2 h

theorem lookupDict_append {α : Type} (k : String) (l₁ l₂ : List (String × α)) :
    lookupDict k (l₁ ++ l₂)
      = match lookupDict k l₁ with
        | some v => some v
        | none => lookupDict k l₂ := by
  induction l₁ with
  | nil => simp [lookupDict]
  | cons p rest ih =>
    obtain ⟨a, b⟩ := p
    by_cases h : k = a <;> simp [lookupDict, h, ih]

theorem lookupDict_map_upsert {α : Type} (u : List (String × α)) :
    ∀ (d : List (String × α)) (k : String),
      lookupDict k (d.map fun p => ((p.1, (lookupDict p.1 u).getD p.2) : String × α))
        = (lookupDict k d).map fun v => (lookupDict k u).getD v := by
  intro d
  induction d with
  | nil => intro k; simp [lookupDict]
  | cons p rest ih =>
    intro k
    obtain ⟨a, b⟩ := p
    by_cases h : k = a
    · subst h
      simp [lookupDict]
    · simp [lookupDict, h, ih]

theorem lookupDict_filter_of_none {α : Type} (d : List (String × α)) :
    ∀ (u : List (String × α)) (k : String), lookupDict k d = none →
      lookupDict k (u.filter fun p => (lookupDict p.1 d).isNone) = lookupDict k u := by
  intro u
  induction u with
  | nil => intro k _; simp
  | cons p rest ih =>
    intro k hk
    obtain ⟨a, b⟩ := p
    by_cases h : k = a
    · subst h
      simp [List.filter_cons, hk, lookupDict]
    · rcases ha : lookupDict a d with _ | v
      · simpa [List.filter_cons, ha, lookupDict, h] using ih k hk
      · simpa [List.filter_cons, ha, lookupDict, h] using ih k hk

theorem lookupDict_dictUpdate {α : Type} (d u : List (String × α)) (k : String)
    (h : (lookupDict k u).isSome) :
    lookupDict k (dictUpdate d u) = lookupDict k u := by
  obtain ⟨w, hw⟩ := Option.isSome_iff_exists.mp h
  unfold dictUpdate
  rw [lookupDict_append, lookupDict_map_upsert]
  rcases hd : lookupDict k d with _ | v
  · simpa using lookupDict_filter_of_none d u k hd
  · simp [hw]

theorem find_profile_fst (profiles : List KernelProfile) (profile_uuid : String)
    (profile_data : ProfileData) :
    (find_profile profiles profile_uuid profile_data).fst
      = find_profile_loop profile_data profiles := by
  unfold find_profile
  rcases h : find_profile_loop profile_data profiles with _ | p <;> simp [h]

theorem find_profile_loop_eq_find? (profile_data : ProfileData)
    (profiles : List KernelProfile) :
    find_profile_loop profile_data profiles
      = profiles.find? (profile_matches profile_data) := by
  induction profiles with
  | nil => rfl
  | cons p rest ih =>
    unfold find_profile_loop
    rcases h : profile_matches profile_data p <;> simp [List.find?_cons, h, ih]

theorem are_profile_properties_identical_iff (profile : KernelProfile)
    (profile_data : ProfileData) :
    are_profile_properties_identical profile profile_data = true ↔
      (mathIsclose profile.areaProps.area profile_data.properties.area
          isclose_default_rel_tol tolerance = true
        ∧ mathIsclose profile.areaProps.perimeter profile_data.properties.perimeter
            isclose_default_rel_tol tolerance = true
        ∧ mathIsclose profile.areaProps.centroid.x profile_data.properties.centroid.x
            isclose_default_rel_tol tolerance = true
        ∧ mathIsclose profile.areaProps.centroid.y profile_data.properties.centroid.y
            isclose_default_rel_tol tolerance = true
        ∧ mathIsclose profile.areaProps.centroid.z profile_data.properties.centroid.z
            isclose_default_rel_tol tolerance = true) := by
  unfold are_profile_properties_identical
  rcases h1 : mathIsclose profile.areaProps.area profile_data.properties.area
      isclose_default_rel_tol tolerance <;>
    rcases h2 : mathIsclose profile.areaProps.perimeter profile_data.properties.perimeter
        isclose_default_rel_tol tolerance <;>
      rcases h3 : mathIsclose profile.areaProps.centroid.x profile_data.properties.centroid.x
          isclose_default_rel_tol tolerance <;>
        rcases h4 : mathIsclose profile.areaProps.centroid.y profile_data.properties.centroid.y
            isclose_default_rel_tol tolerance <;>
          rcases h5 : mathIsclose profile.areaProps.centroid.z profile_data.properties.centroid.z
              isclose_default_rel_tol tolerance <;>
            simp [h1, h2, h3, h4, h5]

theorem find_profile_loop_some (profile_data : ProfileData)
    (profiles : List KernelProfile) (p : KernelProfile)
    (h : find_profile_loop profile_data profiles = some p) :
    profile_matches profile_data p = true := by
  rw [find_profile_loop_eq_find?] at h
  exact List.find?_some h

theorem profile_matches_uuids (profile_data : ProfileData) (p : KernelProfile)
    (h : profile_matches profile_data p = true) :
    sortedList (found_curve_uuids p) = get_curve_uuids profile_data := by
  unfold profile_matches at h
  exact eq_of_beq (Bool.and_eq_true_iff.mp h).1

theorem match_profiles_fst (kernelProfiles : List KernelProfile)
    (l : List (String × ProfileData)) :
    (match_profiles kernelProfiles l).fst
      = l.map fun p => ((p.1, find_profile_loop p.2 kernelProfiles) :
          String × Option KernelProfile) := by
  induction l with
  | nil => rfl
  | cons p rest ih =>
    obtain ⟨pu, pd⟩ := p
    unfold match_profiles
    rcases hf : find_profile kernelProfiles pu pd with ⟨r, evs⟩
    have : r = find_profile_loop pd kernelProfiles := by
      have := find_profile_fst kernelProfiles pu pd
      rw [hf] at this
      exact this
    simp [hf, ih, this]

theorem find_profile_snd_msgs (kernelProfiles : List KernelProfile)
    (profile_uuid : String) (profile_data : ProfileData) :
    ((find_profile kernelProfiles profile_uuid profile_data).snd.all
        fun e => e.isMsg) = true := by
  unfold find_profile
  rcases h : find_profile_loop profile_data kernelProfiles with _ | p <;>
    simp [Event.isMsg]

theorem match_profiles_snd_msgs (kernelProfiles : List KernelProfile)
    (l : List (String × ProfileData)) :
    ((match_profiles kernelProfiles l).snd.all fun e => e.isMsg) = true := by
  induction l with
  | nil => rfl
  | cons p rest ih =>
    obtain ⟨pu, pd⟩ := p
    unfold match_profiles
    rcases hf : find_profile kernelProfiles pu pd with ⟨r, evs⟩
    rcases hm : match_profiles kernelProfiles rest with ⟨m, evs2⟩
    have h1 := find_profile_snd_msgs kernelProfiles pu pd
    rw [hf] at h1
    rw [hm] at ih
    simp only [List.all_eq_true] at h1 ih ⊢
    intro e he
    rcases List.mem_append.mp he with h | h
    · exact h1 e h
    · exact ih e h

theorem isMsg_not_curveCreation (e : Event) (h : e.isMsg = true) :
    e.isCurveCreation = false := by
  cases e <;> simp_all [Event.isMsg, Event.isCurveCreation]

theorem resolve_profiles_snd_adds (table : List (String × Option KernelProfile))
    (refs : List ProfileRef) :
    ((resolve_profiles table refs).snd.all fun e => e.isCollectionAdd) = true := by
  induction refs with
  | nil => rfl
  | cons r rest ih =>
    unfold resolve_profiles
    rcases h : lookupDict r.profile table with _ | vp
    · simp
    · rcases vp with _ | p
      · simp
      · rcases hr : resolve_profiles table rest with ⟨res, evs⟩
        rw [hr] at ih
        rcases res with e | ps <;> simpa [Event.isCollectionAdd] using ih

theorem resolve_profiles_bad (table : List (String × Option KernelProfile))
    (refs : List ProfileRef)
    (h : ∃ r ∈ refs, lookupDict r.profile table = none
        ∨ lookupDict r.profile table = some none) :
    isOk (resolve_profiles table refs).fst = false := by
  induction refs with
  | nil => simp at h
  | cons r rest ih =>
    unfold resolve_profiles
    rcases hl : lookupDict r.profile table with _ | vp
    · simp [isOk]
    · rcases vp with _ | p
      · simp [isOk]
      · have hrest : ∃ x ∈ rest, lookupDict x.profile table = none
            ∨ lookupDict x.profile table = some none := by
          obtain ⟨x, hx, hbad⟩ := h
          rcases List.mem_cons.mp hx with he | hm
          · subst he
            rw [hl] at hbad
            rcases hbad with hb | hb <;> simp at hb
          · exact ⟨x, hm, hbad⟩
        rcases hr : resolve_profiles table rest with ⟨res, evs⟩
        rw [hr] at ih
        rcases res with e | ps
        · simp [isOk]
        · simpa [isOk] using ih hrest

theorem resolve_profiles_ok_resolved (table : List (String × Option KernelProfile))
    (refs : List ProfileRef) (ps : List KernelProfile) (evs : List Event)
    (h : resolve_profiles table refs = (.ok ps, evs)) :
    ∀ r ∈ refs, ∃ p, lookupDict r.profile table = some (some p) := by
  induction refs generalizing ps evs with
  | nil => intro r hr; cases hr
  | cons r0 rest ih =>
    intro r hr
    unfold resolve_profiles at h
    rcases hl : lookupDict r0.profile table with _ | vp
    · rw [hl] at h; cases h
    · rcases vp with _ | p0
      · rw [hl] at h; cases h
      · rw [hl] at h
        rcases hrec : resolve_profiles table rest with ⟨res, evs2⟩
        rw [hrec] at h
        rcases res with e | ps2
        · cases h
        · rcases List.mem_cons.mp hr with he | hm
          · subst he; exact ⟨p0, hl⟩
          · exact ih ps2 evs2 hrec r hm

theorem reconstruct_sketch_line_ok (curve_data : CurveData) (curve_uuid : String)
    (points_data : List (String × Point3d)) (u : Unit) (evs : List Event)
    (h : reconstruct_sketch_line curve_data curve_uuid points_data = (.ok u, evs)) :
    evs.filterMap Event.materializedUuid = [curve_uuid]
      ∧ (evs.filter fun e => e.isMsg) = [] := by
  unfold reconstruct_sketch_line at h
  rcases h1 : lookupPoint points_data curve_data.start_point with e | sp
  · rw [h1] at h; cases h
  · rw [h1] at h
    rcases h2 : lookupPoint points_data curve_data.end_point with e | ep
    · rw [h2] at h; cases h
    · rw [h2] at h
      cases h
      simp [Event.materializedUuid, Event.isMsg]

theorem reconstruct_sketch_arc_ok (curve_data : CurveData) (curve_uuid : String)
    (points_data : List (String × Point3d)) (u : Unit) (evs : List Event)
    (h : reconstruct_sketch_arc curve_data curve_uuid points_data = (.ok u, evs)) :
    evs.filterMap Event.materializedUuid = [curve_uuid]
      ∧ (evs.filter fun e => e.isMsg) = [] := by
  unfold reconstruct_sketch_arc at h
  rcases h1 : lookupPoint points_data curve_data.start_point with e | sp
  · rw [h1] at h; cases h
  · rw [h1] at h
    rcases h2 : lookupPoint points_data curve_data.center_point with e | cp
    · rw [h2] at h; cases h
    · rw [h2] at h
      cases h
      simp [Event.materializedUuid, Event.isMsg]

theorem reconstruct_sketch_circle_ok (curve_data : CurveData) (curve_uuid : String)
    (points_data : List (String × Point3d)) (u : Unit) (evs : List Event)
    (h : reconstruct_sketch_circle curve_data curve_uuid points_data = (.ok u, evs)) :
    evs.filterMap Event.materializedUuid = [curve_uuid]
      ∧ (evs.filter fun e => e.isMsg) = [] := by
  unfold reconstruct_sketch_circle at h
  rcases h1 : lookupPoint points_data curve_data.center_point with e | cp
  · rw [h1] at h; cases h
  · rw [h1] at h
    cases h
    simp [Event.materializedUuid, Event.isMsg]

theorem materializedUuid_unsupportedMsg (t : String) :
    Event.materializedUuid (.unsupportedCurveTypeMsg t) = none := rfl

theorem isMsg_unsupportedMsg (t : String) :
    (Event.unsupportedCurveTypeMsg t).isMsg = true := rfl

theorem reconstruct_sketch_curves_ok (points_data : List (String × Point3d)) :
    ∀ (curves_data : List (String × CurveData)) (u : Unit) (evs : List Event),
      reconstruct_sketch_curves curves_data points_data = (.ok u, evs) →
      evs.filterMap Event.materializedUuid
          = ((curves_data.filter fun p => !p.2.construction_geom
              && isSupportedCurveType p.2.type).map Prod.fst)
        ∧ (evs.filter fun e => e.isMsg)
            = ((curves_data.filter fun p => !p.2.construction_geom
                && !isSupportedCurveType p.2.type).map
                fun p => Event.unsupportedCurveTypeMsg p.2.type) := by
  intro curves_data
  induction curves_data with
  | nil =>
    intro u evs h
    unfold reconstruct_sketch_curves at h
    cases h
    simp
  | cons hd rest ih =>
    intro u evs h
    obtain ⟨uuid, c⟩ := hd
    unfold reconstruct_sketch_curves at h
    rcases hc : c.construction_geom with _ | _
    · simp only [hc, Bool.false_eq_true, if_false] at h
      rcases hline : c.type == "SketchLine" with _ | _
      · simp only [hline, Bool.false_eq_true, if_false] at h
        rcases harc : c.type == "SketchArc" with _ | _
        · simp only [harc, Bool.false_eq_true, if_false] at h
          rcases hcirc : c.type == "SketchCircle" with _ | _
          · simp only [hcirc, Bool.false_eq_true, if_false] at h
            rcases hr : reconstruct_sketch_curves rest points_data with ⟨r2, evs2⟩
            rw [hr] at h
            simp only [Prod.mk.injEq] at h
            obtain ⟨h1, h2⟩ := h
            obtain ⟨A, B⟩ := ih u evs2 (by rw [hr, h1])
            have hsup : isSupportedCurveType c.type = false := by
              simp [isSupportedCurveType, hline, harc, hcirc]
            subst h2
            simp [List.filter_cons, List.filterMap_cons, hc, hsup, A, B,
              materializedUuid_unsupportedMsg, isMsg_unsupportedMsg]
          · simp only [hcirc, if_true] at h
            rcases hl : reconstruct_sketch_circle c uuid points_data with ⟨res, levs⟩
            rw [hl] at h
            rcases res with e | u2
            · simp at h
            · rcases hr : reconstruct_sketch_curves rest points_data with ⟨r2, evs2⟩
              rw [hr] at h
              simp only [Prod.mk.injEq] at h
              obtain ⟨h1, h2⟩ := h
              obtain ⟨A, B⟩ := ih u evs2 (by rw [hr, h1])
              obtain ⟨LA, LB⟩ := reconstruct_sketch_circle_ok c uuid points_data u2 levs hl
              have hsup : isSupportedCurveType c.type = true := by
                simp [isSupportedCurveType, hcirc]
              subst h2
              simp [List.filter_cons, hc, hsup, List.filterMap_append, List.filter_append,
                A, B, LA, LB]
        · simp only [harc, if_true] at h
          rcases hl : reconstruct_sketch_arc c uuid points_data with ⟨res, levs⟩
          rw [hl] at h
          rcases res with e | u2
          · simp at h
          · rcases hr : reconstruct_sketch_curves rest points_data with ⟨r2, evs2⟩
            rw [hr] at h
            simp only [Prod.mk.injEq] at h
            obtain ⟨h1, h2⟩ := h
            obtain ⟨A, B⟩ := ih u evs2 (by rw [hr, h1])
            obtain ⟨LA, LB⟩ := reconstruct_sketch_arc_ok c uuid points_data u2 levs hl
            have hsup : isSupportedCurveType c.type = true := by
              simp [isSupportedCurveType, harc]
            subst h2
            simp [List.filter_cons, hc, hsup, List.filterMap_append, List.filter_append,
              A, B, LA, LB]
      · simp only [hline, if_true] at h
        rcases hl : reconstruct_sketch_line c uuid points_data with ⟨res, levs⟩
        rw [hl] at h
        rcases res with e | u2
        · simp at h
        · rcases hr : reconstruct_sketch_curves rest points_data with ⟨r2, evs2⟩
          rw [hr] at h
          simp only [Prod.mk.injEq] at h
          obtain ⟨h1, h2⟩ := h
          obtain ⟨A, B⟩ := ih u evs2 (by rw [hr, h1])
          obtain ⟨LA, LB⟩ := reconstruct_sketch_line_ok c uuid points_data u2 levs hl
          have hsup : isSupportedCurveType c.type = true := by
            simp [isSupportedCurveType, hline]
          subst h2
          simp [List.filter_cons, hc, hsup, List.filterMap_append, List.filter_append,
            A, B, LA, LB]
    · simp only [hc, if_true] at h
      obtain ⟨A, B⟩ := ih u evs h
      simp [List.filter_cons, hc, A, B]

theorem reconstruct_curves_ok_eq (kernelProfiles : List KernelProfile)
    (sketch_data : SketchData) (curves_data : List (String × CurveData))
    (m : List (String × Option KernelProfile)) (evs : List Event)
    (hc : sketch_data.curves = some curves_data)
    (h : reconstruct_curves kernelProfiles sketch_data = (.ok m, evs)) :
    m = sketch_data.profiles.map fun p =>
      ((p.1, find_profile_loop p.2 kernelProfiles) : String × Option KernelProfile) := by
  simp only [reconstruct_curves, hc] at h
  rcases hr : reconstruct_sketch_curves curves_data sketch_data.points with ⟨res, evs1⟩
  rw [hr] at h
  rcases res with e | u
  · simp at h
  · rcases hm : match_profiles kernelProfiles sketch_data.profiles with ⟨m2, evs2⟩
    rw [hm] at h
    simp only [Prod.mk.injEq, Except.ok.injEq] at h
    have := match_profiles_fst kernelProfiles sketch_data.profiles
    rw [hm] at this
    rw [← h.1]
    exact this

theorem reconstruct_curves_ok_fst (kernelProfiles : List KernelProfile)
    (sketch_data : SketchData) (curves_data : List (String × CurveData))
    (hc : sketch_data.curves = some curves_data)
    (hok : (reconstruct_sketch_curves curves_data sketch_data.points).fst = .ok ()) :
    (reconstruct_curves kernelProfiles sketch_data).fst
      = .ok (sketch_data.profiles.map fun p =>
          ((p.1, find_profile_loop p.2 kernelProfiles) : String × Option KernelProfile)) := by
  simp only [reconstruct_curves, hc]
  rcases hr : reconstruct_sketch_curves curves_data sketch_data.points with ⟨res, evs1⟩
  rw [hr] at hok
  simp only at hok
  subst hok
  rcases hm : match_profiles kernelProfiles sketch_data.profiles with ⟨m2, evs2⟩
  have := match_profiles_fst kernelProfiles sketch_data.profiles
  rw [hm] at this
  simp only [hr, hm]
  exact congrArg (fun l => Except.ok l) this

theorem reconstruct_extrude_feature_err (extrude_data : ExtrudeData)
    (table : List (String × Option KernelProfile)) (e : Err) (resEvs : List Event)
    (hres : resolve_profiles table extrude_data.profiles = (.error e, resEvs)) :
    reconstruct_extrude_feature extrude_data table
      = (.error e, Event.createObjectCollection :: resEvs) := by
  simp [reconstruct_extrude_feature, hres]

theorem reconstruct_extrude_feature_eq (extrude_data : ExtrudeData)
    (table : List (String × Option KernelProfile)) (ps : List KernelProfile)
    (resEvs : List Event)
    (hres : resolve_profiles table extrude_data.profiles = (.ok ps, resEvs)) :
    reconstruct_extrude_feature extrude_data table
      = (.ok { profiles := ps, operation := feature_operations extrude_data.operation,
               extent := side_extent_def extrude_data,
               startExtent :=
                 if extrude_data.start_extent.type == "OffsetStartDefinition" then
                   .offsetStart extrude_data.start_extent.offset
                 else .profilePlane },
         Event.createObjectCollection :: (resEvs
           ++ (Event.createExtrudeInput (feature_operations extrude_data.operation)
               :: (side_extent_events extrude_data ++ start_extent_events extrude_data
                   ++ [Event.addExtrudeFeature])))) := by
  rcases hso : extrude_data.start_extent.type == "OffsetStartDefinition" with _ | _ <;>
    rcases hta : extrude_data.extent_one.taper_angle with _ | t <;>
      rcases htb : extrude_data.extent_two.taper_angle with _ | t2 <;>
        rcases hb1 : extrude_data.extent_type == "OneSideFeatureExtentType" with _ | _ <;>
          rcases hb2 : extrude_data.extent_type == "TwoSidesFeatureExtentType" with _ | _ <;>
            rcases hb3 : extrude_data.extent_type == "SymmetricFeatureExtentType" with _ | _ <;>
              simp [reconstruct_extrude_feature, hres, set_one_side_extrude_input,
                set_two_side_extrude_input, set_symmetric_extrude_input, set_start_extent,
                side_extent_def, side_extent_events, start_extent_events, symmetric_distance,
                hso, hta, htb, hb1, hb2, hb3, mul_one_div, div_eq_mul_inv]

theorem isCollectionAdd_not_featureCreation (e : Event)
    (h : e.isCollectionAdd = true) : e.isFeatureCreation = false := by
  cases e <;> simp_all [Event.isCollectionAdd, Event.isFeatureCreation]

theorem isCollectionAdd_not_msg (e : Event)
    (h : e.isCollectionAdd = true) : e.isMsg = false := by
  cases e <;> simp_all [Event.isCollectionAdd, Event.isMsg]

theorem reconstruct_extrude_feature_bad (extrude_data : ExtrudeData)
    (table : List (String × Option KernelProfile))
    (h : ∃ r ∈ extrude_data.profiles, lookupDict r.profile table = none
        ∨ lookupDict r.profile table = some none) :
    isOk (reconstruct_extrude_feature extrude_data table).fst = false
      ∧ ((reconstruct_extrude_feature extrude_data table).snd.all
          fun e => !e.isFeatureCreation) = true := by
  have hbad := resolve_profiles_bad table extrude_data.profiles h
  have hadds := resolve_profiles_snd_adds table extrude_data.profiles
  rcases hres : resolve_profiles table extrude_data.profiles with ⟨res, resEvs⟩
  rw [hres] at hbad hadds
  rcases res with e | ps
  · rw [reconstruct_extrude_feature_err extrude_data table e resEvs hres]
    refine ⟨rfl, ?_⟩
    simp only [List.all_eq_true] at hadds ⊢
    intro ev hev
    rcases List.mem_cons.mp hev with he | hm
    · subst he; rfl
    · simp [isCollectionAdd_not_featureCreation ev (hadds ev hm)]
  · simp [isOk] at hbad

theorem reconstruct_sketch_none (kernelProfiles : List KernelProfile)
    (sketch_data : SketchData) (h : sketch_data.curves = none) :
    reconstruct_sketch kernelProfiles sketch_data = (.ok none, []) := by
  simp [reconstruct_sketch, h]

theorem reconstruct_sketch_some_fst (kernelProfiles : List KernelProfile)
    (sketch_data : SketchData) (curves_data : List (String × CurveData))
    (hc : sketch_data.curves = some curves_data)
    (hok : (reconstruct_sketch_curves curves_data sketch_data.points).fst = .ok ()) :
    (reconstruct_sketch kernelProfiles sketch_data).fst
      = .ok (some (sketch_data.profiles.map fun p =>
          ((p.1, find_profile_loop p.2 kernelProfiles) : String × Option KernelProfile))) := by
  have hrc := reconstruct_curves_ok_fst kernelProfiles sketch_data curves_data hc hok
  unfold reconstruct_sketch
  rw [hc]
  rcases hr : reconstruct_curves kernelProfiles sketch_data with ⟨res, evs⟩
  rw [hr] at hrc
  simp only at hrc
  subst hrc
  simp

theorem isMsg_not_setStartExtent (e : Event) (h : e.isMsg = true) :
    e.isSetStartExtent = false := by
  cases e <;> simp_all [Event.isMsg, Event.isSetStartExtent]

theorem side_extent_events_no_start (extrude_data : ExtrudeData) :
    ((side_extent_events extrude_data).all fun e => !e.isSetStartExtent) = true := by
  unfold side_extent_events
  rcases h : side_extent_def extrude_data with _ | ed
  · rfl
  · rcases ed <;> simp [Event.isSetStartExtent]

theorem side_extent_events_no_msg (extrude_data : ExtrudeData) :
    ((side_extent_events extrude_data).all fun e => !e.isMsg) = true := by
  unfold side_extent_events
  rcases h : side_extent_def extrude_data with _ | ed
  · rfl
  · rcases ed <;> simp [Event.isMsg]

theorem start_extent_events_eq (extrude_data : ExtrudeData) :
    start_extent_events extrude_data
      = if extrude_data.start_extent.type == "OffsetStartDefinition" then
          [Event.setStartExtent extrude_data.start_extent.offset]
        else [] := rfl

/-- C1: `find_profile` returns the first candidate, in candidate enumeration
order, that passes both the sorted curve-identifier multiset equality check
and the geometric-invariant tolerance checks (the first candidate satisfying
`profile_matches`); if no candidate passes, it returns `None` and logs
exactly the expected profile identifier together with the expected sorted
curve-id set; and the failure is non-fatal: the enclosing `reconstruct_curves`
still succeeds, producing a result entry for every recorded profile. -/
theorem c1_matcher_first_match (profiles : List KernelProfile)
    (profile_uuid : String) (profile_data : ProfileData)
    (kernelProfiles : List KernelProfile) (sketch_data : SketchData)
    (curves_data : List (String × CurveData)) :
    (find_profile profiles profile_uuid profile_data).fst
        = profiles.find? (profile_matches profile_data)
      ∧ (profiles.find? (profile_matches profile_data) = none →
          find_profile profiles profile_uuid profile_data
            = (none, [Event.profileNotFoundMsg profile_uuid
                (get_curve_uuids profile_data)]))
      ∧ (sketch_data.curves = some curves_data →
          (reconstruct_sketch_curves curves_data sketch_data.points).fst = .ok () →
          (reconstruct_curves kernelProfiles sketch_data).fst
            = .ok (sketch_data.profiles.map fun p =>
                ((p.1, find_profile_loop p.2 kernelProfiles) :
                  String × Option KernelProfile))) := by
  refine ⟨?_, ?_, ?_⟩
  · rw [find_profile_fst, find_profile_loop_eq_find?]
  · intro hnone
    have hloop : find_profile_loop profile_data profiles = none := by
      rw [find_profile_loop_eq_find?]; exact hnone
    simp [find_profile, hloop]
  · intro hc hok
    exact reconstruct_curves_ok_fst kernelProfiles sketch_data curves_data hc hok

/-- Witness for C1 at a concrete input: an empty candidate collection, where
the matcher returns `None`, logs the identifier with the (empty) curve-id
set, and sketch reconstruction still returns an entry for the profile. -/
theorem c1_matcher_first_match_witness :
    (find_profile [] "p1" c1ProfileData).fst
        = List.find? (profile_matches c1ProfileData) []
      ∧ find_profile [] "p1" c1ProfileData
          = (none, [Event.profileNotFoundMsg "p1" (get_curve_uuids c1ProfileData)])
      ∧ (reconstruct_curves [] c1Sketch).fst
          = .ok (c1Sketch.profiles.map fun p =>
              ((p.1, find_profile_loop p.2 []) : String × Option KernelProfile)) := by
  have h := c1_matcher_first_match [] "p1" c1ProfileData [] c1Sketch []
  exact ⟨h.1, h.2.1 rfl, h.2.2 rfl rfl⟩

/-- C2: an extrude record with a profile reference that is absent from the
lookup table, or that the table maps to `NotFound` (`None`), makes extrude
reconstruction raise an error: no feature-creation kernel call is emitted,
and a timeline run reaching such an extrude halts with the error. -/
theorem c2_unresolved_profile_halts (extrude_data : ExtrudeData)
    (table : List (String × Option KernelProfile))
    (h : ∃ r ∈ extrude_data.profiles, lookupDict r.profile table = none
        ∨ lookupDict r.profile table = some none) :
    isOk (reconstruct_extrude_feature extrude_data table).fst = false
      ∧ ((reconstruct_extrude_feature extrude_data table).snd.all
          fun e => !e.isFeatureCreation) = true
      ∧ ∀ (oracle : String → List KernelProfile)
          (entities : List (String × Entity)) (entry : TimelineEntry)
          (rest : List TimelineEntry) (n : String),
          lookupDict entry.entity entities = some (.extrudeFeature n extrude_data) →
          isOk (reconstruct_timeline oracle entities (entry :: rest) table).fst
            = false := by
  obtain ⟨h1, h2⟩ := reconstruct_extrude_feature_bad extrude_data table h
  refine ⟨h1, h2, ?_⟩
  intro oracle entities entry rest n hl
  rcases hre : reconstruct_extrude_feature extrude_data table with ⟨res, evs⟩
  rcases res with e | r
  · simp [reconstruct_timeline, hl, hre, isOk]
  · rw [hre] at h1
    simp [isOk] at h1

/-- Witness for C2 at a concrete input: an extrude referencing the id
`missing` against an empty table errors with no feature creation, and the
timeline driver halts on it. -/
theorem c2_unresolved_profile_halts_witness :
    isOk (reconstruct_extrude_feature c2Extrude c2Table).fst = false
      ∧ ((reconstruct_extrude_feature c2Extrude c2Table).snd.all
          fun e => !e.isFeatureCreation) = true
      ∧ isOk (reconstruct_timeline emptyOracle c2Entities
          [{ entity := "e1", index := 0 }] c2Table).fst = false := by
  have h := c2_unresolved_profile_halts c2Extrude c2Table
    ⟨{ profile := "missing" }, by decide, Or.inl (by decide)⟩
  exact ⟨h.1, h.2.1, h.2.2 emptyOracle c2Entities { entity := "e1", index := 0 }
    [] "Extrude1" (by decide)⟩

/-- Counterexample to C3 as stated: a candidate whose sorted curve-identifier
multiset equals the expected one and whose centroid x differs from the
recorded value by `5e-7 > 1e-9` is nevertheless accepted by the matcher,
because the source's `math.isclose` call keeps Python's default relative
tolerance `rel_tol = 1e-9`, which dominates at magnitude 1000.  So the
comparison is not absolute-tolerance equality with tolerance `1e-9`. -/
theorem c3_matcher_tolerance_counterexample :
    (find_profile [c3Candidate] "p0" c3Record).fst = some c3Candidate
      ∧ sortedList (found_curve_uuids c3Candidate) = get_curve_uuids c3Record
      ∧ |c3Candidate.areaProps.centroid.x - c3Record.properties.centroid.x|
          > tolerance := by
  with_unfolding_all decide

/-- C3 amended: for every accepted candidate, each of the five quantities
(area, perimeter, centroid x, y, z) satisfies Python's
`math.isclose(candidate, recorded, rel_tol=1e-9, abs_tol=1e-9)`, i.e.
`abs(candidate - recorded) <= max(1e-9 * max(abs(candidate), abs(recorded)), 1e-9)`;
a candidate with identical curve-identifier multiset is rejected whenever
some quantity differs by more than that bound (for magnitudes at most 1 this
coincides with absolute tolerance `1e-9`). -/
theorem c3_matcher_tolerance_amended (profiles : List KernelProfile)
    (profile_uuid : String) (profile_data : ProfileData) (p : KernelProfile)
    (h : (find_profile profiles profile_uuid profile_data).fst = some p) :
    mathIsclose p.areaProps.area profile_data.properties.area
        isclose_default_rel_tol tolerance = true
      ∧ mathIsclose p.areaProps.perimeter profile_data.properties.perimeter
          isclose_default_rel_tol tolerance = true
      ∧ mathIsclose p.areaProps.centroid.x profile_data.properties.centroid.x
          isclose_default_rel_tol tolerance = true
      ∧ mathIsclose p.areaProps.centroid.y profile_data.properties.centroid.y
          isclose_default_rel_tol tolerance = true
      ∧ mathIsclose p.areaProps.centroid.z profile_data.properties.centroid.z
          isclose_default_rel_tol tolerance = true := by
  rw [find_profile_fst] at h
  have hm := find_profile_loop_some profile_data profiles p h
  unfold profile_matches at hm
  exact (are_profile_properties_identical_iff p profile_data).mp
    (Bool.and_eq_true_iff.mp hm).2

/-- Witness for C3 amended at a concrete input: the accepted candidate
`c3Candidate` satisfies all five `math.isclose` checks against
`c3Record`. -/
theorem c3_matcher_tolerance_amended_witness :
    mathIsclose c3Candidate.areaProps.area c3Record.properties.area
        isclose_default_rel_tol tolerance = true
      ∧ mathIsclose c3Candidate.areaProps.perimeter c3Record.properties.perimeter
          isclose_default_rel_tol tolerance = true
      ∧ mathIsclose c3Candidate.areaProps.centroid.x c3Record.properties.centroid.x
          isclose_default_rel_tol tolerance = true
      ∧ mathIsclose c3Candidate.areaProps.centroid.y c3Record.properties.centroid.y
          isclose_default_rel_tol tolerance = true
      ∧ mathIsclose c3Candidate.areaProps.centroid.z c3Record.properties.centroid.z
          isclose_default_rel_tol tolerance = true :=
  c3_matcher_tolerance_amended [c3Candidate] "p0" c3Record c3Candidate
    (by with_unfolding_all decide)

/-- C4: the matcher never returns a candidate whose sorted curve-identifier
multiset differs from the expected one: any returned candidate's collected
identifiers (gathered over all loops, untagged curves omitted) sort to
exactly the expected sorted sequence, hence are a permutation of the
recorded loops' curve ids — the geometric check is never the sole basis for
acceptance; moreover appending an untagged curve to every loop leaves the
collected identifiers unchanged (omitted, not an error). -/
theorem c4_curve_multiset_gate (profiles : List KernelProfile)
    (profile_uuid : String) (profile_data : ProfileData) (p : KernelProfile)
    (h : (find_profile profiles profile_uuid profile_data).fst = some p) :
    sortedList (found_curve_uuids p) = get_curve_uuids profile_data
      ∧ (found_curve_uuids p).Perm
          (profile_data.loops.map loop_record_curve_ids).flatten
      ∧ ∀ (loops : List ProfileLoop) (ap : ProfileProperties),
          found_curve_uuids
              { profileLoops := loops.map fun l =>
                  { profileCurves := l.profileCurves ++ [{ sketchEntity := none }] },
                areaProps := ap }
            = found_curve_uuids { profileLoops := loops, areaProps := ap } := by
  rw [find_profile_fst] at h
  have hm := find_profile_loop_some profile_data profiles p h
  have huu := profile_matches_uuids profile_data p hm
  refine ⟨huu, ?_, ?_⟩
  · have h1 := (sortedList_perm (found_curve_uuids p)).symm
    have h2 := sortedList_perm (profile_data.loops.map loop_record_curve_ids).flatten
    unfold get_curve_uuids at huu
    exact (h1.trans (huu ▸ h2 : (sortedList (found_curve_uuids p)).Perm
      (profile_data.loops.map loop_record_curve_ids).flatten))
  · intro loops ap
    have hl : ∀ l : ProfileLoop,
        loop_curve_uuids { profileCurves := l.profileCurves ++ [{ sketchEntity := none }] }
          = loop_curve_uuids l := by
      intro l
      simp [loop_curve_uuids, List.filterMap_append]
    have hfe : (loop_curve_uuids ∘ fun l : ProfileLoop =>
        ({ profileCurves := l.profileCurves ++ [{ sketchEntity := none }] } : ProfileLoop))
          = loop_curve_uuids := funext hl
    simp only [found_curve_uuids, List.map_map, hfe]

/-- Witness for C4 at a concrete input: the accepted candidate `c4Candidate`
(whose untagged second curve is omitted from collection) has exactly the
record's curve-id multiset, and padding each loop with an untagged curve
changes nothing. -/
theorem c4_curve_multiset_gate_witness :
    sortedList (found_curve_uuids c4Candidate) = get_curve_uuids c4Record
      ∧ (found_curve_uuids c4Candidate).Perm
          (c4Record.loops.map loop_record_curve_ids).flatten
      ∧ found_curve_uuids c4PaddedProfile = found_curve_uuids c4BaseProfile := by
  have h := c4_curve_multiset_gate [c4Candidate] "u4" c4Record c4Candidate
    (by with_unfolding_all decide)
  exact ⟨h.1, h.2.1, h.2.2 c4Loops zeroProps⟩

/-- C5: a symmetric-extent extrude is built as a two-sided extent with equal
distances on both sides — the recorded distance halved when `is_full_length`
is set (10 total gives 5 per side) and unchanged otherwise (10 gives 10 per
side) — and the same taper angle on both sides, defaulting to 0 when the
record carries none. -/
theorem c5_symmetric_two_sided (extrude_data : ExtrudeData)
    (table : List (String × Option KernelProfile)) (r : ExtrudeInput)
    (evs : List Event)
    (htype : extrude_data.extent_type = "SymmetricFeatureExtentType")
    (h : reconstruct_extrude_feature extrude_data table = (.ok r, evs)) :
    r.extent = some (.twoSides
        (if extrude_data.extent_one.is_full_length then
          extrude_data.extent_one.distance / 2
        else extrude_data.extent_one.distance)
        (if extrude_data.extent_one.is_full_length then
          extrude_data.extent_one.distance / 2
        else extrude_data.extent_one.distance)
        (extrude_data.extent_one.taper_angle.getD 0)
        (extrude_data.extent_one.taper_angle.getD 0))
      ∧ Event.setTwoSidesExtent
          (if extrude_data.extent_one.is_full_length then
            extrude_data.extent_one.distance / 2
          else extrude_data.extent_one.distance)
          (if extrude_data.extent_one.is_full_length then
            extrude_data.extent_one.distance / 2
          else extrude_data.extent_one.distance)
          (extrude_data.extent_one.taper_angle.getD 0)
          (extrude_data.extent_one.taper_angle.getD 0) ∈ evs := by
  have hb1 : (extrude_data.extent_type == "OneSideFeatureExtentType") = false := by
    rw [htype]; rfl
  have hb2 : (extrude_data.extent_type == "TwoSidesFeatureExtentType") = false := by
    rw [htype]; rfl
  have hb3 : (extrude_data.extent_type == "SymmetricFeatureExtentType") = true := by
    rw [htype]; rfl
  rcases hres : resolve_profiles table extrude_data.profiles with ⟨res, resEvs⟩
  rcases res with e | ps
  · rw [reconstruct_extrude_feature_err extrude_data table e resEvs hres] at h
    simp at h
  · rw [reconstruct_extrude_feature_eq extrude_data table ps resEvs hres] at h
    simp only [Prod.mk.injEq, Except.ok.injEq] at h
    obtain ⟨h1, h2⟩ := h
    constructor
    · rw [← h1]
      simp [side_extent_def, symmetric_distance, hb1, hb2, hb3]
    · rw [← h2]
      have hside : side_extent_events extrude_data
          = [Event.setTwoSidesExtent
              (symmetric_distance extrude_data.extent_one)
              (symmetric_distance extrude_data.extent_one)
              (extrude_data.extent_one.taper_angle.getD 0)
              (extrude_data.extent_one.taper_angle.getD 0)] := by
        simp [side_extent_events, side_extent_def, hb1, hb2, hb3]
      simp [hside, symmetric_distance]

/-- Witness for C5 at a concrete input: `distance = 10` with
`is_full_length = true` yields a two-sided extent of 5 per side with zero
taper. -/
theorem c5_symmetric_two_sided_witness :
    c5Data.extent_one.distance = 10
      ∧ (if c5Data.extent_one.is_full_length then c5Data.extent_one.distance / 2
          else c5Data.extent_one.distance) = 5
      ∧ ({ profiles := [c5Profile], operation := "NewBodyFeatureOperation",
           extent := some (.twoSides 5 5 0 0),
           startExtent := .profilePlane } : ExtrudeInput).extent
          = some (.twoSides
              (if c5Data.extent_one.is_full_length then c5Data.extent_one.distance / 2
                else c5Data.extent_one.distance)
              (if c5Data.extent_one.is_full_length then c5Data.extent_one.distance / 2
                else c5Data.extent_one.distance)
              (c5Data.extent_one.taper_angle.getD 0)
              (c5Data.extent_one.taper_angle.getD 0)) := by
  refine ⟨rfl, by with_unfolding_all decide, ?_⟩
  exact (c5_symmetric_two_sided c5Data c5Table
    { profiles := [c5Profile], operation := "NewBodyFeatureOperation",
      extent := some (.twoSides 5 5 0 0), startExtent := .profilePlane }
    [.createObjectCollection, .collectionAdd "p1",
     .createExtrudeInput "NewBodyFeatureOperation",
     .setTwoSidesExtent 5 5 0 0, .addExtrudeFeature]
    rfl (by with_unfolding_all decide)).1

/-- C6 counterexample to the claim as stated: a sketch record with zero
curves but one recorded profile does not return an empty profile mapping —
reconstruction returns a mapping carrying that profile id (bound to
`NotFound`), not the empty mapping. -/
theorem c6_zero_curves_counterexample :
    c6Sketch.curves = some []
      ∧ (reconstruct_sketch [] c6Sketch).fst = .ok (some [("p1", none)])
      ∧ (reconstruct_sketch [] c6Sketch).fst ≠ .ok (some []) := by
  with_unfolding_all decide

/-- C6 amended: a sketch record with no curve data reconstructs to `Empty`
(`None`) with no kernel calls at all; a record whose curve mapping is
present but empty reconstructs to the mapping keyed by exactly its recorded
profile ids (each bound to the match result), with no sketch-curve creation
call beyond sketch creation — so the mapping is empty exactly when the
record also lists no profiles. -/
theorem c6_zero_curves_amended (kernelProfiles : List KernelProfile)
    (sketch_data : SketchData) :
    (sketch_data.curves = none →
      reconstruct_sketch kernelProfiles sketch_data = (.ok none, []))
      ∧ (sketch_data.curves = some [] →
          (reconstruct_sketch kernelProfiles sketch_data).fst
              = .ok (some (sketch_data.profiles.map fun p =>
                  ((p.1, find_profile_loop p.2 kernelProfiles) :
                    String × Option KernelProfile)))
            ∧ ((reconstruct_sketch kernelProfiles sketch_data).snd.all
                fun e => !e.isCurveCreation) = true
            ∧ (sketch_data.profiles = [] →
                (reconstruct_sketch kernelProfiles sketch_data).fst
                  = .ok (some []))) := by
  constructor
  · intro hnone
    exact reconstruct_sketch_none kernelProfiles sketch_data hnone
  · intro hc
    have hfst := reconstruct_sketch_some_fst kernelProfiles sketch_data [] hc rfl
    refine ⟨hfst, ?_, ?_⟩
    · have hcur : reconstruct_curves kernelProfiles sketch_data
          = (.ok (match_profiles kernelProfiles sketch_data.profiles).fst,
             Event.pointsCurvesMsg sketch_data.points.length 0
               :: (match_profiles kernelProfiles sketch_data.profiles).snd) := by
        simp only [reconstruct_curves, hc]
        rcases hm : match_profiles kernelProfiles sketch_data.profiles with ⟨m, evs2⟩
        simp [reconstruct_sketch_curves, hm]
      have hsnd : (reconstruct_sketch kernelProfiles sketch_data).snd
          = Event.createSketch :: Event.setSketchTransform
              :: Event.pointsCurvesMsg sketch_data.points.length 0
              :: (match_profiles kernelProfiles sketch_data.profiles).snd := by
        unfold reconstruct_sketch
        rw [hc]
        simp [hcur]
      rw [hsnd]
      have hmsgs := match_profiles_snd_msgs kernelProfiles sketch_data.profiles
      simp only [List.all_eq_true] at hmsgs ⊢
      intro e he
      simp only [List.mem_cons] at he
      rcases he with rfl | rfl | rfl | hmem
      · rfl
      · rfl
      · rfl
      · simp [isMsg_not_curveCreation e (hmsgs e hmem)]
    · intro hp
      rw [hfst, hp]
      rfl

/-- Witness for C6 amended at concrete inputs: a record with no curve data
gives `Empty`; a record with zero curves and zero profiles gives the empty
mapping; a record with zero curves and one profile creates no sketch
curve. -/
theorem c6_zero_curves_amended_witness :
    reconstruct_sketch [] c6NoCurves = (.ok none, [])
      ∧ (reconstruct_sketch [] c6EmptyAll).fst = .ok (some [])
      ∧ ((reconstruct_sketch [] c6Sketch).snd.all
          fun e => !e.isCurveCreation) = true :=
  ⟨(c6_zero_curves_amended [] c6NoCurves).1 rfl,
   ((c6_zero_curves_amended [] c6EmptyAll).2 rfl).2.2 rfl,
   ((c6_zero_curves_amended [] c6Sketch).2 rfl).2.1⟩

/-- C7: during curve reconstruction, a recorded curve is materialized iff
its construction flag is false and its `type` is one of
`SketchLine`/`SketchArc`/`SketchCircle` (the created-curve uuids are exactly
the qualifying record entries, in order); the emitted diagnostics are
exactly one unsupported-type warning per non-construction curve of any other
variant; and an unsupported non-construction curve at the head of the batch
is skipped with that warning while processing continues unchanged. -/
theorem c7_materialization_iff (curves_data : List (String × CurveData))
    (points_data : List (String × Point3d)) (u : Unit) (evs : List Event)
    (h : reconstruct_sketch_curves curves_data points_data = (.ok u, evs)) :
    evs.filterMap Event.materializedUuid
        = ((curves_data.filter fun p => !p.2.construction_geom
            && isSupportedCurveType p.2.type).map Prod.fst)
      ∧ (evs.filter fun e => e.isMsg)
          = ((curves_data.filter fun p => !p.2.construction_geom
              && !isSupportedCurveType p.2.type).map
              fun p => Event.unsupportedCurveTypeMsg p.2.type)
      ∧ ∀ (uuid : String) (c : CurveData), c.construction_geom = false →
          isSupportedCurveType c.type = false →
          reconstruct_sketch_curves ((uuid, c) :: curves_data) points_data
            = ((reconstruct_sketch_curves curves_data points_data).fst,
               Event.unsupportedCurveTypeMsg c.type
                 :: (reconstruct_sketch_curves curves_data points_data).snd) := by
  obtain ⟨A, B⟩ := reconstruct_sketch_curves_ok points_data curves_data u evs h
  refine ⟨A, B, ?_⟩
  intro uuid c hcon hsup
  have hn := hsup
  unfold isSupportedCurveType at hn
  simp only [Bool.or_eq_false_iff] at hn
  obtain ⟨⟨hn1, hn2⟩, hn3⟩ := hn
  rcases hr : reconstruct_sketch_curves curves_data points_data with ⟨r2, evs2⟩
  simp [reconstruct_sketch_curves, hcon, hn1, hn2, hn3, hr]

/-- Witness for C7 at a concrete input: of a line, a construction line and
an ellipse, only the line is materialized, and exactly one warning (for the
ellipse) is printed. -/
theorem c7_materialization_iff_witness :
    ((reconstruct_sketch_curves c7Curves c7Points).snd.filterMap
        Event.materializedUuid)
        = ((c7Curves.filter fun p => !p.2.construction_geom
            && isSupportedCurveType p.2.type).map Prod.fst)
      ∧ ((reconstruct_sketch_curves c7Curves c7Points).snd.filter
          fun e => e.isMsg)
          = ((c7Curves.filter fun p => !p.2.construction_geom
              && !isSupportedCurveType p.2.type).map
              fun p => Event.unsupportedCurveTypeMsg p.2.type)
      ∧ reconstruct_sketch_curves (("U2", c7Ellipse) :: c7Curves) c7Points
          = ((reconstruct_sketch_curves c7Curves c7Points).fst,
             Event.unsupportedCurveTypeMsg c7Ellipse.type
               :: (reconstruct_sketch_curves c7Curves c7Points).snd) := by
  have h := c7_materialization_iff c7Curves c7Points ()
    [Event.addLine "L1" { x := 0, y := 0, z := 0 } { x := 1, y := 0, z := 0 },
     Event.unsupportedCurveTypeMsg "SketchEllipse"]
    (by with_unfolding_all decide)
  have hpair : reconstruct_sketch_curves c7Curves c7Points
      = (.ok (),
         [Event.addLine "L1" { x := 0, y := 0, z := 0 } { x := 1, y := 0, z := 0 },
          Event.unsupportedCurveTypeMsg "SketchEllipse"]) := by
    with_unfolding_all decide
  refine ⟨?_, ?_, h.2.2 "U2" c7Ellipse rfl rfl⟩
  · rw [hpair]
    exact h.1
  · rw [hpair]
    exact h.2.1

/-- C8 counterexample to the claim as stated: an extrude record whose
start-extent type tag is unhandled (`SomeOtherStartDefinition`) is processed
to completion with no start-extent assignment and with no diagnostic of any
kind — the source skips the unhandled tag silently, not "with a warning". -/
theorem c8_start_extent_counterexample :
    c8Data.start_extent.type = "SomeOtherStartDefinition"
      ∧ reconstruct_extrude_feature c8Data c8Table = (.ok c8Input, c8Evs)
      ∧ (c8Evs.all fun e => !e.isMsg) = true
      ∧ (c8Evs.all fun e => !e.isSetStartExtent) = true := by
  with_unfolding_all decide

/-- C8 amended: the start extent is applied after the side-extent
configuration (the event trace is: resolution, input creation, side-extent
calls — none of which assign a start extent — then the start-extent events,
then feature commit); the profile-plane default takes no action; an offset
start constructs and assigns an offset-start definition from the offset
value; and any other start-extent type is skipped silently — no action and
no diagnostic — while the run continues. -/
theorem c8_start_extent_amended (extrude_data : ExtrudeData)
    (table : List (String × Option KernelProfile)) (r : ExtrudeInput)
    (evs : List Event)
    (h : reconstruct_extrude_feature extrude_data table = (.ok r, evs)) :
    evs = Event.createObjectCollection
        :: ((resolve_profiles table extrude_data.profiles).snd
          ++ (Event.createExtrudeInput (feature_operations extrude_data.operation)
              :: (side_extent_events extrude_data ++ start_extent_events extrude_data
                  ++ [Event.addExtrudeFeature])))
      ∧ ((side_extent_events extrude_data).all fun e => !e.isSetStartExtent) = true
      ∧ start_extent_events extrude_data
          = (if extrude_data.start_extent.type == "OffsetStartDefinition" then
              [Event.setStartExtent extrude_data.start_extent.offset]
            else [])
      ∧ r.startExtent
          = (if extrude_data.start_extent.type == "OffsetStartDefinition" then
              .offsetStart extrude_data.start_extent.offset
            else .profilePlane)
      ∧ ((start_extent_events extrude_data).all fun e => !e.isMsg) = true := by
  rcases hres : resolve_profiles table extrude_data.profiles with ⟨res, resEvs⟩
  rcases res with e | ps
  · rw [reconstruct_extrude_feature_err extrude_data table e resEvs hres] at h
    simp at h
  · rw [reconstruct_extrude_feature_eq extrude_data table ps resEvs hres] at h
    simp only [Prod.mk.injEq, Except.ok.injEq] at h
    obtain ⟨h1, h2⟩ := h
    refine ⟨?_, side_extent_events_no_start extrude_data,
      start_extent_events_eq extrude_data, ?_, ?_⟩
    · rw [← h2]
    · rw [← h1]
    · rw [start_extent_events_eq]
      rcases hso : extrude_data.start_extent.type == "OffsetStartDefinition" with _ | _
      · simp
      · simp [Event.isMsg]

/-- Witness for C8 amended at a concrete input (the `c8Data` run): the trace
decomposes with the start-extent events (empty here) after the side-extent
call, and carries no diagnostics. -/
theorem c8_start_extent_amended_witness :
    c8Evs = Event.createObjectCollection
        :: ((resolve_profiles c8Table c8Data.profiles).snd
          ++ (Event.createExtrudeInput (feature_operations c8Data.operation)
              :: (side_extent_events c8Data ++ start_extent_events c8Data
                  ++ [Event.addExtrudeFeature])))
      ∧ ((side_extent_events c8Data).all fun e => !e.isSetStartExtent) = true
      ∧ start_extent_events c8Data
          = (if c8Data.start_extent.type == "OffsetStartDefinition" then
              [Event.setStartExtent c8Data.start_extent.offset]
            else [])
      ∧ c8Input.startExtent
          = (if c8Data.start_extent.type == "OffsetStartDefinition" then
              .offsetStart c8Data.start_extent.offset
            else .profilePlane)
      ∧ ((start_extent_events c8Data).all fun e => !e.isMsg) = true :=
  c8_start_extent_amended c8Data c8Table c8Input c8Evs
    (by with_unfolding_all decide)

/-- C9: the timeline driver processes entries in recorded order, resolving
each entity by id and dispatching on its type tag — for a Sketch entity the
(non-empty) returned profile map is merged into the running table before the
rest of the timeline is processed; for an ExtrudeFeature entity the record
is reconstructed against the current running table, which continues
unchanged; an entity of any other type contributes only its progress print
and has no effect on the table or the rest of the run. -/
theorem c9_timeline_dispatch (oracle : String → List KernelProfile)
    (entities : List (String × Entity)) (entry : TimelineEntry)
    (rest : List TimelineEntry)
    (table : List (String × Option KernelProfile)) :
    (∀ (n t : String), lookupDict entry.entity entities = some (.other n t) →
      reconstruct_timeline oracle entities (entry :: rest) table
        = ((reconstruct_timeline oracle entities rest table).fst,
           Event.reconstructingMsg n
             :: (reconstruct_timeline oracle entities rest table).snd))
      ∧ (∀ (n : String) (sketch_data : SketchData)
          (m : List (String × Option KernelProfile)) (evs : List Event),
          lookupDict entry.entity entities = some (.sketch n sketch_data) →
          reconstruct_sketch (oracle entry.entity) sketch_data = (.ok (some m), evs) →
          m ≠ [] →
          reconstruct_timeline oracle entities (entry :: rest) table
            = ((reconstruct_timeline oracle entities rest (dictUpdate table m)).fst,
               Event.reconstructingMsg n
                 :: (evs ++ (reconstruct_timeline oracle entities rest
                      (dictUpdate table m)).snd)))
      ∧ (∀ (n : String) (extrude_data : ExtrudeData) (r : ExtrudeInput)
          (evs : List Event),
          lookupDict entry.entity entities = some (.extrudeFeature n extrude_data) →
          reconstruct_extrude_feature extrude_data table = (.ok r, evs) →
          reconstruct_timeline oracle entities (entry :: rest) table
            = ((reconstruct_timeline oracle entities rest table).fst,
               Event.reconstructingMsg n
                 :: (evs ++ (reconstruct_timeline oracle entities rest table).snd))) := by
  refine ⟨?_, ?_, ?_⟩
  · intro n t hl
    rcases hrec : reconstruct_timeline oracle entities rest table with ⟨r2, evs2⟩
    simp [reconstruct_timeline, hl, hrec, Entity.entityName]
  · intro n sketch_data m evs hl hsk hm
    have hne : m.isEmpty = false := by
      cases m
      · exact absurd rfl hm
      · rfl
    rcases hrec : reconstruct_timeline oracle entities rest (dictUpdate table m)
      with ⟨r2, evs2⟩
    simp [reconstruct_timeline, hl, hsk, hne, hrec, Entity.entityName]
  · intro n extrude_data r evs hl hex
    rcases hrec : reconstruct_timeline oracle entities rest table with ⟨r2, evs2⟩
    simp [reconstruct_timeline, hl, hex, hrec, Entity.entityName]

/-- Witness for C9 at concrete inputs: one step of the driver on an ignored
entity, on a sketch entity (merging its map), and on an extrude entity. -/
theorem c9_timeline_dispatch_witness :
    reconstruct_timeline emptyOracle c9Entities [{ entity := "o1", index := 2 }] []
        = ((reconstruct_timeline emptyOracle c9Entities [] []).fst,
           Event.reconstructingMsg "Origin"
             :: (reconstruct_timeline emptyOracle c9Entities [] []).snd)
      ∧ reconstruct_timeline emptyOracle c9Entities [{ entity := "s1", index := 0 }] []
          = ((reconstruct_timeline emptyOracle c9Entities []
                (dictUpdate [] [("p1", none)])).fst,
             Event.reconstructingMsg "Sketch1"
               :: (c9SketchEvs ++ (reconstruct_timeline emptyOracle c9Entities []
                    (dictUpdate [] [("p1", none)])).snd))
      ∧ reconstruct_timeline emptyOracle c9Entities [{ entity := "e1", index := 1 }] []
          = ((reconstruct_timeline emptyOracle c9Entities [] []).fst,
             Event.reconstructingMsg "Extrude1"
               :: (c9ExtrudeEvs
                   ++ (reconstruct_timeline emptyOracle c9Entities [] []).snd)) :=
  ⟨(c9_timeline_dispatch emptyOracle c9Entities { entity := "o1", index := 2 } [] []).1
      "Origin" "ConstructionPlane" (by decide),
   (c9_timeline_dispatch emptyOracle c9Entities { entity := "s1", index := 0 } [] []).2.1
      "Sketch1" c9Sketch [("p1", none)] c9SketchEvs (by decide)
      (by with_unfolding_all decide) (by decide),
   (c9_timeline_dispatch emptyOracle c9Entities { entity := "e1", index := 1 } [] []).2.2
      "Extrude1" c9Extrude c9Input c9ExtrudeEvs (by decide)
      (by with_unfolding_all decide)⟩

/-- C10: for a sketch record carrying curve data, the mapping produced by
curve reconstruction has as key sequence exactly the record's profile ids,
each bound to its matcher result (the matched kernel profile, or `None` when
matching failed); and merging a non-empty such mapping into the running
table leaves every unmatched profile id present in the table bound to
`NotFound` (`None`) rather than absent. -/
theorem c10_profile_map_invariant (kernelProfiles : List KernelProfile)
    (sketch_data : SketchData) (curves_data : List (String × CurveData))
    (table : List (String × Option KernelProfile))
    (m : List (String × Option KernelProfile)) (evs : List Event)
    (hc : sketch_data.curves = some curves_data)
    (h : reconstruct_curves kernelProfiles sketch_data = (.ok m, evs)) :
    m.map Prod.fst = sketch_data.profiles.map Prod.fst
      ∧ m = sketch_data.profiles.map (fun p =>
          ((p.1, find_profile_loop p.2 kernelProfiles) : String × Option KernelProfile))
      ∧ ((m.map Prod.fst).Nodup → m ≠ [] →
          ∀ pu : String, (pu, (none : Option KernelProfile)) ∈ m →
            lookupDict pu (dictUpdate table m) = some none) := by
  have hm := reconstruct_curves_ok_eq kernelProfiles sketch_data curves_data m evs hc h
  refine ⟨?_, hm, ?_⟩
  · rw [hm]
    simp [List.map_map, Function.comp]
  · intro hnd _ pu hmem
    have hl : lookupDict pu m = some none := lookupDict_eq_of_mem hnd hmem
    rw [lookupDict_dictUpdate table m pu (by simp [hl])]
    exact hl

/-- Witness for C10 at a concrete input: the zero-curve sketch with one
unmatched profile produces the map binding `p1` to `NotFound`, and after the
merge `p1` is present in the table bound to `NotFound`. -/
theorem c10_profile_map_invariant_witness :
    ([("p1", (none : Option KernelProfile))].map Prod.fst)
        = c10Sketch.profiles.map Prod.fst
      ∧ lookupDict "p1" (dictUpdate c10Table [("p1", none)]) = some none := by
  have h := c10_profile_map_invariant [] c10Sketch [] c10Table [("p1", none)]
    c10Evs rfl (by with_unfolding_all decide)
  exact ⟨h.1, h.2.2 (by decide) (by decide) "p1" (by decide)⟩

end SketchExtrudeImporter
